import Mathlib

/-!
Verification development for the SlideEgg-Canva PPTX / Fabric.js converter.

The Python sources (color_handler.py, advanced_shape_handler.py, text_handler.py,
shape_handler.py, pptx_fabric_converter.py) are shallowly embedded below.
Machine reals of the source are modelled by exact rationals; Python integers by Int/Nat;
fallible code by Option.  Python exception handlers that swallow an error and return a
default are modelled by returning that default on the corresponding branch.
-/

/-! ## Python-semantics helpers -/

/-- Python `int(q)` on a numeric value: truncation toward zero. -/
def pyInt (q : ℚ) : Int :=
  if 0 ≤ q then ⌊q⌋ else ⌈q⌉

/-- Python `a % b` for floats with a positive divisor: floor-modulo. -/
def pyMod (a b : ℚ) : ℚ :=
  a - b * ⌊a / b⌋

/-- Rendering of an optional string attribute inside a Python f-string:
`None` renders as the four characters `None`. -/
def pyStrOpt : Option String → String
  | some s => s
  | none => "None"

/-- Python `str.upper()` on the ASCII strings the converter uppercases
(scheme color role names). -/
def pyUpper (s : String) : String :=
  String.mk (s.data.map Char.toUpper)

/-- Python `str.lower()` on the ASCII strings the converter lowercases
(alignment names). -/
def pyLower (s : String) : String :=
  String.mk (s.data.map Char.toLower)

/-- Lookup in an association list, modelling Python `dict.get(k)` for the
string-keyed dictionaries used by the converter. -/
def dictGet (tbl : List (String × String)) (k : String) : Option String :=
  match tbl.find? (fun p => p.1 = k) with
  | some p => some p.2
  | none => none

/-- Python `k in dict` membership test. -/
def dictHas (tbl : List (String × String)) (k : String) : Bool :=
  (tbl.find? (fun p => p.1 = k)).isSome

/-- Python `max(order, key=xs.count)`: first element of `order` whose count in
`xs` is maximal (Python `max` keeps the earlier element on ties). -/
def pyMaxCount [DecidableEq α] (order xs : List α) : Option α :=
  order.foldl
    (fun best y =>
      match best with
      | none => some y
      | some b => if xs.count b < xs.count y then some y else some b)
    none

/-- Stable insertion by table slot (`v % 8`), ascending. -/
def insertBySlot (a : Nat) : List Nat → List Nat
  | [] => [a]
  | b :: rest => if a % 8 ≤ b % 8 then a :: b :: rest else b :: insertBySlot a rest

/-- Iteration order of a CPython `set` built from a list of small numeric
values, in the collision-free regime exercised here: CPython hashes an int (or
an integral float) to itself and an 8-slot open-addressing table stores a value
`v` at slot `v % 8`, so iteration visits distinct values in ascending order of
`v % 8`.  (Checked against CPython: `list(set([12, 18])) == [18, 12]`.) -/
def cpythonSetNat (xs : List Nat) : List Nat :=
  xs.dedup.foldr insertBySlot []

/-- First-seen-ordered iteration over the distinct values of a list; used to
state the tie-break rule that the specification claims (mode with ties broken
by the first-seen value). -/
def firstSeenMode [DecidableEq α] (xs : List α) : Option α :=
  pyMaxCount xs xs

/-! ## Hexadecimal rendering and parsing (Python `%02x` / `int(s, 16)`) -/

/-- Lowercase hexadecimal digit character for a value below 16. -/
def hexDigitChar (d : Nat) : Char :=
  if d < 10 then Char.ofNat (48 + d) else Char.ofNat (87 + d)

/-- Hexadecimal digits of `n`, least significant first, with structural fuel
(the fuel `n` always suffices since `n / 16 < n` for positive `n`). -/
def natToHexRevAux : Nat → Nat → List Char
  | _, 0 => []
  | 0, _ + 1 => []
  | fuel + 1, n + 1 => hexDigitChar ((n + 1) % 16) :: natToHexRevAux fuel ((n + 1) / 16)

/-- Hexadecimal digits of `n`, least significant first. -/
def natToHexRev (n : Nat) : List Char :=
  natToHexRevAux n n

/-- Lowercase hexadecimal rendering of `n` with no padding (Python `%x`). -/
def pyHex (n : Nat) : String :=
  if n = 0 then "0" else String.mk (natToHexRev n).reverse

/-- Python `%02x` / `f-string :02x`: lowercase hexadecimal, zero-padded to at
least two characters. -/
def py02x (n : Nat) : String :=
  let s := pyHex n
  if s.length < 2 then "0" ++ s else s

/-- Value of one hexadecimal digit character (either case), `none` otherwise. -/
def hexVal (c : Char) : Option Nat :=
  let n := c.toNat
  if 48 ≤ n ∧ n ≤ 57 then some (n - 48)
  else if 97 ≤ n ∧ n ≤ 102 then some (n - 87)
  else if 65 ≤ n ∧ n ≤ 70 then some (n - 55)
  else none

/-- Python `int(s, 16)` restricted to the nonempty all-hex-digit strings that
the converter ever feeds it (two-character slices of a color string); any other
content raises `ValueError` there, modelled as `none`.  (Python additionally
strips whitespace and accepts a sign, but those characters never survive the
slicing done by the caller on round-trip inputs.) -/
def pyIntHex (cs : List Char) : Option Nat :=
  match cs with
  | [] => none
  | _ =>
    cs.foldl
      (fun acc c =>
        match acc, hexVal c with
        | some a, some d => some (a * 16 + d)
        | _, _ => none)
      (some 0)

/-- Maximal runs of decimal digits in a string, as numbers: Python
`tuple(map(int, re.findall(r"\d+", s)))`. -/
def digitRuns (cs : List Char) : List Nat :=
  go cs none
where
  go : List Char → Option Nat → List Nat
  | [], none => []
  | [], some a => [a]
  | c :: rest, acc =>
    if c.isDigit then
      go rest (some ((acc.getD 0) * 10 + (c.toNat - 48)))
    else
      match acc with
      | some a => a :: go rest none
      | none => go rest none

/-! ## color_handler.py -/

/-- A markup color element as inspected by
`ColorHandler._extract_color_from_element`: an optional `srgbClr` descendant
(with optional `val` attribute), an optional `sysClr` descendant (with optional
`lastClr` and `val` attributes), and an optional `schemeClr` descendant (with
optional `val` attribute). -/
structure ColorElement where
  srgb : Option (Option String)
  sysClr : Option (Option String × Option String)
  schemeClr : Option (Option String)
deriving DecidableEq, Repr

/-- `ColorHandler._extract_color_from_element`: try `srgbClr`, then `sysClr`
(`lastClr` attribute with fallback to the `val` attribute), then `schemeClr`
(uppercased lookup in the theme table); `none` on no match.  A `schemeClr`
element without a `val` attribute raises `AttributeError` on `val.upper()`,
which the enclosing handler swallows, returning `none`. -/
def extract_color_from_element (tbl : List (String × String)) (e : ColorElement) :
    Option String :=
  match e.srgb with
  | some v => some ("#" ++ pyStrOpt v)
  | none =>
    match e.sysClr with
    | some (lastClr, val) => some ("#" ++ pyStrOpt (lastClr.orElse (fun _ => val)))
    | none =>
      match e.schemeClr with
      | some (some v) => dictGet tbl (pyUpper v)
      | some none => none
      | none => none

/-- The built-in default theme palette of `ColorHandler._extract_theme_colors`. -/
def default_theme_colors : List (String × String) :=
  [("BACKGROUND_1", "#FFFFFF"), ("BACKGROUND_2", "#F2F2F2"),
   ("TEXT_1", "#000000"), ("TEXT_2", "#666666"),
   ("ACCENT_1", "#4472C4"), ("ACCENT_2", "#ED7D31"),
   ("ACCENT_3", "#A5A5A5"), ("ACCENT_4", "#FFC000"),
   ("ACCENT_5", "#5B9BD5"), ("ACCENT_6", "#70AD47")]

/-- The fill of a shape as probed by `ColorHandler.get_shape_color`:
`background` is `MSO_FILL.BACKGROUND`; `solid` carries the optional direct RGB
triple and the optional stringified theme-color name of `fill.fore_color`;
`gradient` is `MSO_FILL.GRADIENT`; `other` stands for every remaining fill
type (including an unset type). -/
inductive FillKind where
  | background
  | solid (rgb : Option (Nat × Nat × Nat)) (theme : Option String)
  | gradient
  | other
deriving DecidableEq, Repr

/-- The RGB hex rendering used throughout the converter:
Python `f-string` with three `:02x` fields. -/
def rgbToHex (r g b : Nat) : String :=
  "#" ++ py02x r ++ py02x g ++ py02x b

/-- `ColorHandler.get_shape_color`.  The argument is `none` when the shape has
no `fill` attribute or its fill is `None`; otherwise it is the fill kind.
Every exception inside the Python body is caught and mapped to
`"transparent"`, so the embedding is a total function. -/
def get_shape_color (tbl : List (String × String)) (fill : Option FillKind) : String :=
  match fill with
  | none => "transparent"
  | some .background => "transparent"
  | some (.solid rgb theme) =>
    match rgb with
    | some (r, g, b) => rgbToHex r g b
    | none =>
      match theme with
      | some t => if dictHas tbl t then (dictGet tbl t).getD "transparent" else "transparent"
      | none => "transparent"
  | some .gradient => "gradient"
  | some .other => "transparent"

/-! ## advanced_shape_handler.py -/

/-- Names bound at module level in `advanced_shape_handler.py` (its import
list).  Python resolves the identifier `Math` against this set at run time;
only the lowercase `math` module is imported, so `Math` is unbound. -/
def advancedHandlerModuleNames : List String :=
  ["ET", "ZipFile", "io", "base64", "math", "AdvancedShapeHandler"]

/-- Whether the identifier `Math` is bound in `advanced_shape_handler.py`
(it is not: evaluating `Math.PI` raises `NameError`). -/
def mathIsBound : Bool :=
  advancedHandlerModuleNames.contains "Math"

/-- One `gs` gradient-stop element: optional `pos` attribute and optional
`srgbClr` descendant with optional `val` attribute. -/
structure GsElem where
  pos : Option Int
  srgb : Option (Option String)
deriving DecidableEq, Repr

/-- A `gradFill` element as probed by `_extract_gradient`: optional `lin`
descendant (with optional `ang` attribute), optional `path` descendant, and
the list of `gs` stop elements. -/
structure GradFillElem where
  lin : Option (Option Int)
  hasPath : Bool
  gsList : List GsElem
deriving DecidableEq, Repr

/-- The gradient record built by `_extract_gradient`. -/
structure Gradient where
  gtype : String
  angle : ℚ
  stops : List (ℚ × String)
deriving DecidableEq, Repr

/-- `AdvancedShapeHandler._extract_gradient`: type defaults to linear; a `lin`
descendant supplies the angle (`ang` attribute, default 0, divided by 60000);
otherwise a `path` descendant switches the type to radial.  Stops keep the
`pos` attribute (default 0) divided by 100000 and the `srgbClr` color; a stop
without `srgbClr` is skipped. -/
def extract_gradient (gf : GradFillElem) : Gradient :=
  let (gtype, angle) :=
    match gf.lin with
    | some ang => ("linear", ((ang.getD 0 : Int) : ℚ) / 60000)
    | none => if gf.hasPath then ("radial", (0 : ℚ)) else ("linear", (0 : ℚ))
  { gtype := gtype
    angle := angle
    stops := gf.gsList.filterMap (fun gs =>
      match gs.srgb with
      | some v => some ((((gs.pos.getD 0 : Int) : ℚ) / 100000), "#" ++ pyStrOpt v)
      | none => none) }

/-- An `outerShdw` effect element: optional integer attributes and optional
`srgbClr` descendant. -/
structure OuterShdwElem where
  blurRad : Option Int
  dx : Option Int
  dy : Option Int
  alpha : Option Int
  srgb : Option (Option String)
deriving DecidableEq, Repr

/-- A `glow` effect element. -/
structure GlowElem where
  rad : Option Int
  alpha : Option Int
  srgb : Option (Option String)
deriving DecidableEq, Repr

/-- A `softEdge` effect element. -/
structure SoftEdgeElem where
  rad : Option Int
deriving DecidableEq, Repr

/-- An `effectLst` element with its at-most-one shadow, glow and soft-edge
children as found by `_extract_effects` (`find` returns the first match). -/
structure EffectsElem where
  outerShdw : Option OuterShdwElem
  glow : Option GlowElem
  softEdge : Option SoftEdgeElem
deriving DecidableEq, Repr

/-- An entry of the effect list produced by `_extract_effects`. -/
inductive Effect where
  | shadow (color : String) (opacity : ℚ) (blur : ℚ) (dx : ℚ) (dy : ℚ)
  | glow (color : String) (opacity : ℚ) (radius : ℚ)
  | softEdge (radius : ℚ)
deriving DecidableEq, Repr

/-- `AdvancedShapeHandler._get_effect_color`: the `srgbClr` descendant value
prefixed with `#`, defaulting to black. -/
def get_effect_color (srgb : Option (Option String)) : String :=
  match srgb with
  | some v => "#" ++ pyStrOpt v
  | none => "#000000"

/-- `AdvancedShapeHandler._extract_effects`: appends the shadow, then the
glow, then the soft edge, each when its element is present, with attribute
defaults `alpha=100000`, `blurRad=0`, `dx=0`, `dy=0`, `rad=0` and divisors
100000 (alpha) and 12700 (lengths). -/
def extract_effects (e : EffectsElem) : List Effect :=
  (match e.outerShdw with
   | some sh =>
     [Effect.shadow (get_effect_color sh.srgb)
        (((sh.alpha.getD 100000 : Int) : ℚ) / 100000)
        (((sh.blurRad.getD 0 : Int) : ℚ) / 12700)
        (((sh.dx.getD 0 : Int) : ℚ) / 12700)
        (((sh.dy.getD 0 : Int) : ℚ) / 12700)]
   | none => []) ++
  (match e.glow with
   | some gl =>
     [Effect.glow (get_effect_color gl.srgb)
        (((gl.alpha.getD 100000 : Int) : ℚ) / 100000)
        (((gl.rad.getD 0 : Int) : ℚ) / 12700)]
   | none => []) ++
  (match e.softEdge with
   | some se => [Effect.softEdge (((se.rad.getD 0 : Int) : ℚ) / 12700)]
   | none => [])

/-- Custom-geometry record produced by `_extract_custom_geometry`: the
rendered path strings and the optional bounding rectangle (attributes divided
by 100000).  The path-command string rendering itself is kept abstract: the
claims never inspect it. -/
structure GeomProps where
  paths : List String
  rect : Option (ℚ × ℚ × ℚ × ℚ)
deriving DecidableEq, Repr

/-- The dictionary produced by `AdvancedShapeHandler.extract_shape_properties`
(the `shadow`, `reflection`, `glow` and `soft_edges` keys are always `None`
and never read, so they are omitted). -/
structure AdvProps where
  gradient : Option Gradient
  custom_geometry : Option GeomProps
  effects : List Effect
deriving DecidableEq, Repr

/-- The advanced markup of one shape: its optional `gradFill`, the optional
pre-extracted custom geometry, and its optional `effectLst`.  The whole value
is `none` when the shape has no element or no `spPr`. -/
structure AdvElem where
  gradFill : Option GradFillElem
  custGeom : Option GeomProps
  effectLst : Option EffectsElem
deriving DecidableEq, Repr

/-- `AdvancedShapeHandler.extract_shape_properties` on the modelled markup. -/
def extract_shape_properties (el : Option AdvElem) : Option AdvProps :=
  match el with
  | none => none
  | some e =>
    some { gradient := e.gradFill.map extract_gradient
           custom_geometry := e.custGeom
           effects := match e.effectLst with
                      | some eff => extract_effects eff
                      | none => [] }

/-- Gradient coordinates of a Fabric.js fill descriptor. -/
structure GradCoords where
  x1 : ℚ
  y1 : ℚ
  x2 : ℚ
  y2 : ℚ
  r1 : Option ℚ
  r2 : Option ℚ
deriving DecidableEq, Repr

/-- A Fabric.js fill value: either a color string or a gradient descriptor. -/
inductive FillValue where
  | str (s : String)
  | gradientFill (gtype : String) (coords : GradCoords) (stops : List (ℚ × String))
deriving DecidableEq, Repr

/-- A Fabric.js shadow descriptor. -/
structure ShadowProps where
  color : String
  blur : ℚ
  offsetX : ℚ
  offsetY : ℚ
  opacity : ℚ
deriving DecidableEq, Repr

/-- The clip-path rectangle written by `convert_to_fabric` (its constant
`type: rect` tag is implicit in this structure). -/
structure ClipRect where
  left : ℚ
  top : ℚ
  width : ℚ
  height : ℚ
deriving DecidableEq, Repr

/-- The dictionary assembled by `AdvancedShapeHandler.convert_to_fabric`. -/
structure FabricProps where
  fill : Option FillValue
  path : Option String
  clipPath : Option ClipRect
  shadow : Option ShadowProps
deriving DecidableEq, Repr

/-- The empty Fabric property dictionary. -/
def emptyFabricProps : FabricProps :=
  { fill := none, path := none, clipPath := none, shadow := none }

/-- Mapping of one extracted effect to the Fabric.js shadow written by the
effect loop of `convert_to_fabric`: a shadow keeps its parameters; a glow
becomes a centered shadow with doubled radius as blur; a soft edge becomes a
centered black shadow with opacity 0.1. -/
def effectToShadow : Effect → ShadowProps
  | .shadow c o b dx dy => { color := c, blur := b, offsetX := dx, offsetY := dy, opacity := o }
  | .glow c o r => { color := c, blur := r * 2, offsetX := 0, offsetY := 0, opacity := o }
  | .softEdge r => { color := "#000000", blur := r, offsetX := 0, offsetY := 0, opacity := 1/10 }

/-- `AdvancedShapeHandler.convert_to_fabric`.  For a linear gradient the
Python body evaluates `Math.PI`, but this module binds only the lowercase
`math` module, so a `NameError` is raised, caught by the enclosing handler,
and the empty dictionary is returned (every key assembled before the raise is
discarded).  For a radial (or other non-linear) gradient the fixed
center-to-edge coordinates are used.  Each effect in turn overwrites the
single `shadow` key. -/
def convert_to_fabric (shape_props : Option AdvProps) : FabricProps :=
  match shape_props with
  | none => emptyFabricProps
  | some p =>
    match p.gradient with
    | some g =>
      if g.gtype = "linear" then
        -- The Python body evaluates `Math.PI` on this branch; `Math` is not
        -- bound in the module (`mathIsBound = false`), so a `NameError` is
        -- raised, the enclosing handler catches it, and `return` yields the
        -- empty dictionary, discarding the keys assembled before the raise.
        emptyFabricProps
      else
        afterGradient p
          { emptyFabricProps with
            fill := some (.gradientFill g.gtype
              { x1 := 1/2, y1 := 1/2, x2 := 1/2, y2 := 1/2,
                r1 := some 0, r2 := some (1/2) } g.stops) }
    | none => afterGradient p emptyFabricProps
where
  /-- The custom-geometry and effect sections of `convert_to_fabric`,
  executed after the gradient section when no exception was raised. -/
  afterGradient (p : AdvProps) (fp : FabricProps) : FabricProps :=
    let fp1 :=
      match p.custom_geometry with
      | some geom =>
        let fpa := match geom.paths with
                   | [] => fp
                   | q :: _ => { fp with path := some q }
        match geom.rect with
        | some (l, t, r, b) =>
          { fpa with clipPath := some { left := l, top := t, width := r - l, height := b - t } }
        | none => fpa
      | none => fp
    p.effects.foldl (fun acc e => { acc with shadow := some (effectToShadow e) }) fp1

/-! ## text_handler.py -/

/-- Per-run font record built by `TextHandler._get_run_properties` (sizes are
whole points here, as in every claim). -/
structure FontP where
  name : String
  size : Nat
  bold : Bool
  italic : Bool
  underline : Bool
  color : String
  strike : Bool
  sub : Bool
  sup : Bool
deriving DecidableEq, Repr

/-- Per-run record of the extracted text properties. -/
structure RunP where
  text : String
  font : FontP
deriving DecidableEq, Repr

/-- Per-paragraph record built by `TextHandler._get_paragraph_properties`.
All fields take part in the Python `!=` dictionary comparison performed by
`convert_to_fabric_text`, so all are carried here. -/
structure Para where
  text : String
  align : String
  spacing_before : ℚ
  spacing_after : ℚ
  line_spacing : ℚ
  runs : List RunP
deriving DecidableEq, Repr

/-- One per-character style entry of the Fabric.js sparse style map. -/
structure Style where
  fontFamily : String
  fontSize : Nat
  fontWeight : String
  fontStyle : String
  underline : Bool
  fill : String
  textAlign : String
deriving DecidableEq, Repr

/-- The style dictionary written for every character of a run. -/
def styleOfRun (align : String) (r : RunP) : Style :=
  { fontFamily := r.font.name
    fontSize := r.font.size
    fontWeight := if r.font.bold then "bold" else "normal"
    fontStyle := if r.font.italic then "italic" else "normal"
    underline := r.font.underline
    fill := r.font.color
    textAlign := align }

/-- The Fabric.js textbox object assembled by `convert_to_fabric_text`
(constant keys `type`, `originX`, `originY` omitted; the style map is the
association list of character offset to style). -/
structure FabricText where
  text : String
  styles : List (Nat × Style)
  fontSize : Nat
  fontFamily : String
  textAlign : String
  fill : String
deriving DecidableEq, Repr

/-- Accumulator of the paragraph/run loops of `convert_to_fabric_text`. -/
structure TextAcc where
  text : String
  styles : List (Nat × Style)
  font_sizes : List Nat
  font_families : List String
  colors : List String
  alignments : List String
  current_index : Nat
deriving DecidableEq, Repr

/-- The inner run loop body of `convert_to_fabric_text`: a run with empty
text contributes nothing; otherwise its text is appended, its font size,
family and color are recorded, and its style is written at every character
offset it covers. -/
def runStep (align : String) (acc : TextAcc) (r : RunP) : TextAcc :=
  if r.text = "" then acc
  else
    { text := acc.text ++ r.text
      styles := acc.styles ++
        (List.range r.text.length).map (fun i => (acc.current_index + i, styleOfRun align r))
      font_sizes := acc.font_sizes ++ [r.font.size]
      font_families := acc.font_families ++ [r.font.name]
      colors := acc.colors ++ [r.font.color]
      alignments := acc.alignments
      current_index := acc.current_index + r.text.length }

/-- The outer paragraph loop body: record the alignment, process the runs,
then append a newline — but only when the paragraph compares unequal (Python
`!=`, structural value equality) to the last paragraph of the list. -/
def paraStep (lastPara : Para) (acc : TextAcc) (p : Para) : TextAcc :=
  let acc1 := { acc with alignments := acc.alignments ++ [p.align] }
  let acc2 := p.runs.foldl (runStep p.align) acc1
  if p = lastPara then acc2
  else { acc2 with text := acc2.text ++ "\n", current_index := acc2.current_index + 1 }

/-- The paragraph/run walk of `TextHandler.convert_to_fabric_text`: the
accumulator state after both loops have run. -/
def textAccOf (paragraphs : List Para) : TextAcc :=
  let acc0 : TextAcc :=
    { text := "", styles := [], font_sizes := [], font_families := [],
      colors := [], alignments := [], current_index := 0 }
  match paragraphs.getLast? with
  | none => acc0
  | some lastPara => paragraphs.foldl (paraStep lastPara) acc0

/-- `TextHandler.convert_to_fabric_text`.  `setN` and `setS` are the
iteration orders of the CPython `set` objects built over the collected
numeric and string value lists (`max(set(xs), key=xs.count)`); CPython
specifies no insertion-order guarantee for them, so they are oracle
parameters constrained in the theorems to be permutations of the distinct
values.  Defaults: size 12, family Arial, fill black, alignment left. -/
def convert_to_fabric_text (setN : List Nat → List Nat)
    (setS : List String → List String) (paragraphs : List Para) : FabricText :=
  let acc := textAccOf paragraphs
  { text := acc.text
    styles := acc.styles
    fontSize := if acc.font_sizes = [] then 12
                else (pyMaxCount (setN acc.font_sizes) acc.font_sizes).getD 12
    fontFamily := if acc.font_families = [] then "Arial"
                  else (pyMaxCount (setS acc.font_families) acc.font_families).getD "Arial"
    fill := if acc.colors = [] then "#000000"
            else (pyMaxCount (setS acc.colors) acc.colors).getD "#000000"
    textAlign := if acc.alignments = [] then "left"
                 else (pyMaxCount (setS acc.alignments) acc.alignments).getD "left" }

/-! ## shape_handler.py -/

/-- The raw geometry of a shape in native EMU units, together with its
optional `rotation` attribute (`0` substituted when absent). -/
structure BaseProps where
  leftEmu : Int
  topEmu : Int
  widthEmu : Int
  heightEmu : Int
  rotation : Option ℚ
deriving DecidableEq, Repr

/-- The `line` attribute of a shape as probed by `_get_line_properties`:
whether `line.color` is present and truthy, the fill of the line object
(what `get_shape_color` receives), and the optional `width` (EMU; `None`
makes the division raise `TypeError`, caught after the stroke was set). -/
structure LineInfo where
  hasColor : Bool
  fill : Option FillKind
  widthEmu : Option Int
deriving DecidableEq, Repr

/-- One scene-object dictionary (flat field set: every key any branch of the
dispatcher can write; a key the branch did not write is `none`).  The
constant keys `originX`, `originY` and `crossOrigin` are omitted. -/
structure ObjCore where
  ty : String
  left : ℚ
  top : ℚ
  width : ℚ
  height : ℚ
  rotation : ℚ
  fill : Option FillValue
  stroke : Option String
  strokeWidth : Option ℚ
  shadow : Option ShadowProps
  path : Option String
  clipPath : Option ClipRect
  angle : Option ℚ
  src : Option String
  opacity : Option ℚ
  text : Option String
  styles : Option (List (Nat × Style))
  fontSize : Option Nat
  fontFamily : Option String
  textAlign : Option String
  backgroundColor : Option String
deriving DecidableEq, Repr

/-- A scene object: its dictionary plus, for groups, the `objects` list. -/
inductive SceneObj where
  | mk (core : ObjCore) (objects : List SceneObj)

/-- The dictionary part of a scene object. -/
def SceneObj.core : SceneObj → ObjCore
  | .mk c _ => c

/-- The children of a scene object (empty unless the object is a group). -/
def SceneObj.objects : SceneObj → List SceneObj
  | .mk _ l => l

/-- A shape of the source document, as the forward dispatcher
`ShapeHandler.process_shape` classifies it.  `failing` stands for a shape
whose processing raises (caught by the dispatcher, which drops the shape). -/
inductive PShape where
  | group (base : BaseProps) (adv : Option AdvElem) (children : List PShape)
  | picture (base : BaseProps) (adv : Option AdvElem)
      (image : Option (String × String)) (alphaAmt : Option (Option Int))
  | textbox (base : BaseProps) (adv : Option AdvElem)
      (paragraphs : List Para) (bgFill : Option FillKind)
  | autoshape (base : BaseProps) (adv : Option AdvElem)
      (fill : Option FillKind) (line : Option LineInfo) (isTriangle : Bool)
  | freeform (base : BaseProps) (adv : Option AdvElem)
      (pathData : Option String) (fill : Option FillKind) (line : Option LineInfo)
  | lineShape (base : BaseProps) (adv : Option AdvElem) (line : Option LineInfo)
  | unsupported
  | failing

/-- A scene-object dictionary with every optional key absent. -/
def emptyCore : ObjCore :=
  { ty := "", left := 0, top := 0, width := 0, height := 0, rotation := 0,
    fill := none, stroke := none, strokeWidth := none, shadow := none,
    path := none, clipPath := none, angle := none, src := none, opacity := none,
    text := none, styles := none, fontSize := none, fontFamily := none,
    textAlign := none, backgroundColor := none }

/-- `ShapeHandler._get_base_properties`: EMU divided by 12700, rotation
defaulted to 0. -/
def get_base_properties (b : BaseProps) : ObjCore :=
  { emptyCore with
    left := ((b.leftEmu : ℚ)) / 12700
    top := ((b.topEmu : ℚ)) / 12700
    width := ((b.widthEmu : ℚ)) / 12700
    height := ((b.heightEmu : ℚ)) / 12700
    rotation := b.rotation.getD 0 }

/-- `base_props.update(fabric_props)`: the advanced keys overwrite (here:
fill) the corresponding entries of the base dictionary. -/
def updateWithFabric (c : ObjCore) (fp : FabricProps) : ObjCore :=
  let c1 := match fp.fill with
            | some f => { c with fill := some f }
            | none => c
  let c2 := match fp.path with
            | some p => { c1 with path := some p }
            | none => c1
  let c3 := match fp.clipPath with
            | some cp => { c2 with clipPath := some cp }
            | none => c2
  match fp.shadow with
  | some sh => { c3 with shadow := some sh }
  | none => c3

/-- `ShapeHandler._get_line_properties`: optional stroke color (via
`get_shape_color` on the line object) and optional stroke width (EMU divided
by 12700; a `None` width raises and leaves the width key unset). -/
def get_line_properties (tbl : List (String × String)) (line : Option LineInfo) :
    Option String × Option ℚ :=
  match line with
  | none => (none, none)
  | some li =>
    let stroke :=
      if li.hasColor then
        let c := get_shape_color tbl li.fill
        if c = "" then none else some c
      else none
    match li.widthEmu with
    | some w => (stroke, some (((w : Int) : ℚ) / 12700))
    | none => (stroke, none)

/-- `ShapeHandler._process_autoshape` given the (advanced-updated) base
dictionary: type `rect` (or `triangle`), fill from the color handler, stroke
defaults `#000000` / width 1 (a falsy extracted width — `0` — also falls back
to 1), and for triangles the downward-pointing `angle` override. -/
def process_autoshape (tbl : List (String × String)) (c : ObjCore)
    (fill : Option FillKind) (line : Option LineInfo) (isTriangle : Bool) : ObjCore :=
  let shape_type := if isTriangle then "triangle" else "rect"
  let c1 := { c with ty := shape_type }
  let fill_color := get_shape_color tbl fill
  let c2 := if fill_color ≠ "" then { c1 with fill := some (.str fill_color) } else c1
  let (strokeOpt, widthOpt) := get_line_properties tbl line
  let stroke := match strokeOpt with
                | some s => if s = "" then "#000000" else s
                | none => "#000000"
  let strokeWidth := match widthOpt with
                     | some w => if w = 0 then 1 else w
                     | none => 1
  let c3 := { c2 with stroke := some stroke, strokeWidth := some strokeWidth }
  if isTriangle then { c3 with angle := some (pyMod (c3.rotation + 180) 360) } else c3

/-- `ShapeHandler._process_picture`: a data-URL image object with opacity
from the optional alpha modifier (`amt` attribute divided by 100000, default
1); no object when the shape exposes no image. -/
def process_picture (c : ObjCore) (image : Option (String × String))
    (alphaAmt : Option (Option Int)) : Option ObjCore :=
  match image with
  | some (data, ctype) =>
    let imageType := ((ctype.splitOn "/").getLast?).getD ""
    let opacity : ℚ :=
      match alphaAmt with
      | some (some amt) => ((amt : Int) : ℚ) / 100000
      | _ => 1
    some { c with
           ty := "image"
           src := some ("data:image/" ++ imageType ++ ";base64," ++ data)
           opacity := some opacity }
  | none => none

/-- `ShapeHandler._process_textbox` given the (advanced-updated) base
dictionary: merge of the Fabric text dictionary (which overwrites `fill`)
plus the `backgroundColor` from the color handler. -/
def process_textbox (setN : List Nat → List Nat) (setS : List String → List String)
    (tbl : List (String × String)) (c : ObjCore)
    (paragraphs : List Para) (bgFill : Option FillKind) : ObjCore :=
  let ft := convert_to_fabric_text setN setS paragraphs
  { c with
    ty := "textbox"
    text := some ft.text
    styles := some ft.styles
    fontSize := some ft.fontSize
    fontFamily := some ft.fontFamily
    textAlign := some ft.textAlign
    fill := some (.str ft.fill)
    backgroundColor := some (get_shape_color tbl bgFill) }

/-- `ShapeHandler._process_freeform` given the (advanced-updated) base
dictionary: a `path` object when a nonempty path string was extracted, with
optional fill and line properties (no stroke defaults here). -/
def process_freeform (tbl : List (String × String)) (c : ObjCore)
    (pathData : Option String) (fill : Option FillKind) (line : Option LineInfo) :
    Option ObjCore :=
  match pathData with
  | some p =>
    if p = "" then none
    else
      let c1 := { c with ty := "path", path := some p }
      let fill_color := get_shape_color tbl fill
      let c2 := if fill_color ≠ "" then { c1 with fill := some (.str fill_color) } else c1
      let (strokeOpt, widthOpt) := get_line_properties tbl line
      let c3 := match strokeOpt with
                | some s => { c2 with stroke := some s }
                | none => c2
      some (match widthOpt with
            | some w => { c3 with strokeWidth := some w }
            | none => c3)
  | none => none

/-- The line path string `M sx sy L ex ey` of `_process_line`.  (Python
renders the coordinates with float `repr`; the exact digits are irrelevant to
every claim, so the rational rendering is used here.) -/
def linePathStr (sx sy ex ey : ℚ) : String :=
  "M " ++ toString sx ++ " " ++ toString sy ++ " L " ++ toString ex ++ " " ++ toString ey

/-- `ShapeHandler._process_line` given the (advanced-updated) base
dictionary: a `path` object over the diagonal of the bounding box, fill
`transparent`, with the same stroke defaults as auto shapes. -/
def process_line (tbl : List (String × String)) (b : BaseProps) (c : ObjCore)
    (line : Option LineInfo) : ObjCore :=
  let sx := ((b.leftEmu : ℚ)) / 12700
  let sy := ((b.topEmu : ℚ)) / 12700
  let ex := (((b.leftEmu + b.widthEmu : Int) : ℚ)) / 12700
  let ey := (((b.topEmu + b.heightEmu : Int) : ℚ)) / 12700
  let c1 := { c with
              ty := "path"
              path := some (linePathStr sx sy ex ey)
              fill := some (.str "transparent") }
  let (strokeOpt, widthOpt) := get_line_properties tbl line
  let stroke := match strokeOpt with
                | some s => if s = "" then "#000000" else s
                | none => "#000000"
  let strokeWidth := match widthOpt with
                     | some w => if w = 0 then 1 else w
                     | none => 1
  { c1 with stroke := some stroke, strokeWidth := some strokeWidth }

mutual
/-- `ShapeHandler.process_shape`: base properties, advanced enrichment, then
kind dispatch; any raised exception (the `failing` constructor) and any
unsupported kind drop the shape (`none`). -/
def process_shape (setN : List Nat → List Nat) (setS : List String → List String)
    (tbl : List (String × String)) : PShape → Option SceneObj
  | .group b adv children =>
    let c := updateWithFabric (get_base_properties b)
               (convert_to_fabric (extract_shape_properties adv))
    let objs := process_shape_list setN setS tbl children
    if objs.isEmpty then none
    else some (.mk { c with ty := "group" } objs)
  | .picture b adv image alphaAmt =>
    let c := updateWithFabric (get_base_properties b)
               (convert_to_fabric (extract_shape_properties adv))
    (process_picture c image alphaAmt).map (fun cc => .mk cc [])
  | .textbox b adv paragraphs bgFill =>
    let c := updateWithFabric (get_base_properties b)
               (convert_to_fabric (extract_shape_properties adv))
    some (.mk (process_textbox setN setS tbl c paragraphs bgFill) [])
  | .autoshape b adv fill line isTriangle =>
    let c := updateWithFabric (get_base_properties b)
               (convert_to_fabric (extract_shape_properties adv))
    some (.mk (process_autoshape tbl c fill line isTriangle) [])
  | .freeform b adv pathData fill line =>
    let c := updateWithFabric (get_base_properties b)
               (convert_to_fabric (extract_shape_properties adv))
    (process_freeform tbl c pathData fill line).map (fun cc => .mk cc [])
  | .lineShape b adv line =>
    let c := updateWithFabric (get_base_properties b)
               (convert_to_fabric (extract_shape_properties adv))
    some (.mk (process_line tbl b c line) [])
  | .unsupported => none
  | .failing => none

/-- The child loop of `ShapeHandler._process_group`: process each child and
keep the truthy results, in order. -/
def process_shape_list (setN : List Nat → List Nat) (setS : List String → List String)
    (tbl : List (String × String)) : List PShape → List SceneObj
  | [] => []
  | s :: rest =>
    match process_shape setN setS tbl s with
    | some o => o :: process_shape_list setN setS tbl rest
    | none => process_shape_list setN setS tbl rest
end

mutual
/-- Every group object reachable in a scene object has a nonempty `objects`
list. -/
def noEmptyGroups : SceneObj → Bool
  | .mk c objs => (!(c.ty = "group") || !objs.isEmpty) && noEmptyGroupsList objs

/-- `noEmptyGroups` over a list of scene objects. -/
def noEmptyGroupsList : List SceneObj → Bool
  | [] => true
  | o :: os => noEmptyGroups o && noEmptyGroupsList os
end

/-! ## pptx_fabric_converter.py -/

/-- Names imported at module level in `pptx_fabric_converter.py`.  The
reverse builder references the identifier `MSO_SHAPE`, which is not among
them (only `MSO_SHAPE_TYPE` is imported), so evaluating `MSO_SHAPE.RECTANGLE`
or `MSO_SHAPE.FREEFORM` raises `NameError`. -/
def converterModuleNames : List String :=
  ["Presentation", "Pt", "Inches", "MSO_SHAPE_TYPE", "RGBColor", "json",
   "base64", "re", "io", "zipfile", "tempfile", "shutil", "os",
   "ColorHandler", "TextHandler", "ShapeHandler", "PPTXFabricConverter"]

/-- Whether the identifier `MSO_SHAPE` is bound in
`pptx_fabric_converter.py` (it is not). -/
def msoShapeIsBound : Bool :=
  converterModuleNames.contains "MSO_SHAPE"

/-- python-pptx `Inches(v)`: EMU value `int(v * 914400)`. -/
def inchesToEmu (v : ℚ) : Int :=
  pyInt (v * 914400)

/-- python-pptx `Pt(v)`: EMU value `int(v * 12700)`. -/
def ptToEmu (v : ℚ) : Int :=
  pyInt (v * 12700)

/-- The forward unit conversion of `_get_base_properties` (and of the slide
dimensions): native EMU divided by 12700, exactly. -/
def emuToPt (x : Int) : ℚ :=
  ((x : ℚ)) / 12700

/-- The native position/size computed by `_create_shape_from_fabric` for a
scalar (point) value `p`: `Inches(p / 72)`. -/
def fabricLenToEmu (p : ℚ) : Int :=
  inchesToEmu (p / 72)

/-- `PPTXFabricConverter._parse_color`: a `#`-string has all leading `#`
stripped and three two-character slices parsed as hexadecimal (any failure
gives `none`); an `rgb`-string yields all decimal digit runs (possibly not
three); anything else gives `none`. -/
def parse_color_chars (cs : List Char) : Option (List Nat) :=
  if cs.head? = some '#' then
    let t := cs.dropWhile (fun c => c = '#')
    (match pyIntHex (t.take 2), pyIntHex ((t.drop 2).take 2), pyIntHex ((t.drop 4).take 2) with
     | some a, some b, some c => some [a, b, c]
     | _, _, _ => none)
  else if cs.take 3 = ['r', 'g', 'b'] then some (digitRuns cs)
  else none

/-- `_parse_color` on a string. -/
def parse_color (s : String) : Option (List Nat) :=
  parse_color_chars s.data

/-- `_parse_color` on a Fabric fill value: a non-string (gradient
dictionary) fails the `isinstance(color, str)` test and gives `none`. -/
def parse_color_value : FillValue → Option (List Nat)
  | .str s => parse_color s
  | .gradientFill _ _ _ => none

/-- The fill state of a reconstructed shape (or slide background):
whether `fill.solid()` ran and the RGB triple if one was assigned.
`RGBColor(*color)` needs exactly three arguments; any other tuple arity
raises after `solid()` already ran, which the handler catches. -/
structure PyFillState where
  solidSet : Bool
  rgb : Option (List Nat)
deriving DecidableEq, Repr

/-- Application of a parsed color to a fill: the Python pattern
`if color: fill.solid(); fill.fore_color.rgb = RGBColor(*color)` with the
truthiness of tuples (`None` and the empty tuple are falsy). -/
def applyParsedFill (c : Option (List Nat)) (st : PyFillState) : PyFillState :=
  match c with
  | some l =>
    if l.isEmpty then st
    else
      let st1 := { st with solidSet := true }
      if l.length = 3 then { st1 with rgb := some l } else st1
  | none => st

/-- The line state of a reconstructed shape. -/
structure PyLineState where
  rgb : Option (List Nat)
  widthEmu : Option Int
deriving DecidableEq, Repr

/-- A shape as rebuilt by `_create_shape_from_fabric` (geometry in EMU). -/
structure RShapeState where
  kind : String
  leftEmu : Int
  topEmu : Int
  widthEmu : Int
  heightEmu : Int
  fill : PyFillState
  line : PyLineState
  text : Option String
  fontSizeEmu : Option Int
  fontName : Option String
  fontColor : Option (List Nat)
  bold : Option Bool
  italic : Option Bool
  align : Option String
  rotation : Option ℚ
deriving DecidableEq, Repr

/-- `PPTXFabricConverter._set_shape_properties`: fill (when the object has a
truthy parsed fill color) and stroke color/width (width only inside the
stroke branch).  `line.color.rgb` assignment with a wrong-arity tuple raises
and skips the width, modelled by requiring arity 3 for the color while the
width is set whenever the color assignment did not raise. -/
def set_shape_properties (obj : ObjCore) (st : RShapeState) : RShapeState :=
  let st1 :=
    match obj.fill with
    | some fv => { st with fill := applyParsedFill (parse_color_value fv) st.fill }
    | none => st
  let widthOf : Option Int → Option Int := fun old =>
    match obj.strokeWidth with
    | some w => some (ptToEmu w)
    | none => old
  match obj.stroke with
  | some s =>
    (match parse_color s with
     | some l =>
       if l.isEmpty then
         { st1 with line := { rgb := st1.line.rgb, widthEmu := widthOf st1.line.widthEmu } }
       else if l.length = 3 then
         { st1 with line := { rgb := some l, widthEmu := widthOf st1.line.widthEmu } }
       else
         -- RGBColor(*color) raises: the exception aborts the whole setter
         st1
     | none =>
       { st1 with line := { rgb := st1.line.rgb, widthEmu := widthOf st1.line.widthEmu } })
  | none => st1

/-- `PPTXFabricConverter._get_alignment` (reverse direction). -/
def reverse_alignment (align : String) : String :=
  if pyLower align = "left" ∨ pyLower align = "center" ∨ pyLower align = "right"
     ∨ pyLower align = "justify" then pyLower align else "left"

/-- `PPTXFabricConverter._set_text_properties` on a fresh textbox. -/
def set_text_properties (obj : ObjCore) (st : RShapeState) : RShapeState :=
  match obj.text with
  | none => st
  | some tx =>
    let st1 := { st with text := some tx }
    let st2 := match obj.fontSize with
               | some fs => { st1 with fontSizeEmu := some (ptToEmu (fs : ℚ)) }
               | none => st1
    let st3 := match obj.fontFamily with
               | some fam => { st2 with fontName := some fam }
               | none => st2
    let st4 := match obj.fill with
               | some fv =>
                 (match parse_color_value fv with
                  | some l => if l.isEmpty then st3
                              else if l.length = 3 then { st3 with fontColor := some l }
                              else st3 -- RGBColor(*color) raises, caught by the setter
                  | none => st3)
               | none => st3
    let st5 := match obj.textAlign with
               | some al => { st4 with align := some (reverse_alignment al) }
               | none => st4
    st5

/-- The empty fill/line state of a freshly added shape. -/
def freshFill : PyFillState := { solidSet := false, rgb := none }

/-- The empty line state of a freshly added shape. -/
def freshLine : PyLineState := { rgb := none, widthEmu := none }

/-- `PPTXFabricConverter._create_shape_from_fabric`: returns the shape added
to the slide, or `none` when no shape is added.  The `rect` and `path`
branches evaluate `MSO_SHAPE.RECTANGLE` / `MSO_SHAPE.FREEFORM`; the module
does not bind `MSO_SHAPE` (`msoShapeIsBound = false`), so a `NameError` is
raised before any shape exists, the handler catches it, and nothing is
added.  Unknown kinds match no branch and add nothing. -/
def create_shape_from_fabric (obj : ObjCore) : Option RShapeState :=
  let le := fabricLenToEmu obj.left
  let te := fabricLenToEmu obj.top
  let we := fabricLenToEmu obj.width
  let he := fabricLenToEmu obj.height
  let withAngle : RShapeState → RShapeState := fun st =>
    match obj.angle with
    | some a => { st with rotation := some a }
    | none => st
  if obj.ty = "textbox" then
    let st0 : RShapeState :=
      { kind := "textbox", leftEmu := le, topEmu := te, widthEmu := we, heightEmu := he,
        fill := freshFill, line := freshLine, text := none, fontSizeEmu := none,
        fontName := none, fontColor := none, bold := none, italic := none,
        align := none, rotation := none }
    some (withAngle (set_text_properties obj st0))
  else if obj.ty = "rect" then
    if msoShapeIsBound then none else none
  else if obj.ty = "path" then
    if msoShapeIsBound then none else none
  else if obj.ty = "image" then
    match obj.src with
    | some src =>
      if src.startsWith "data:image" then
        some (withAngle
          { kind := "image", leftEmu := le, topEmu := te, widthEmu := we, heightEmu := he,
            fill := freshFill, line := freshLine, text := none, fontSizeEmu := none,
            fontName := none, fontColor := none, bold := none, italic := none,
            align := none, rotation := none })
      else none
    | none => none
  else none

/-- A slide of the source document: its shapes and, when the slide exposes a
background with a truthy fill, the fill kind of that background. -/
structure PSlide where
  shapes : List PShape
  bg : Option FillKind

/-- The source document: global slide dimensions (EMU) and the slides. -/
structure PDoc where
  slideWidthEmu : Int
  slideHeightEmu : Int
  slides : List PSlide

/-- The background scene object of a slide (its constant keys
`type: rect`, `left/top: 0`, percentage size and `selectable: false` are
implicit; only the fill is carried). -/
structure BgObj where
  fill : String
deriving DecidableEq, Repr

/-- `PPTXFabricConverter._get_slide_background`. -/
def get_slide_background (tbl : List (String × String)) (bg : Option FillKind) :
    Option BgObj :=
  match bg with
  | some fk =>
    let c := get_shape_color tbl (some fk)
    if c = "" then none else some { fill := c }
  | none => none

/-- One Slide of the forward output. -/
structure SlideData where
  objects : List SceneObj
  width : ℚ
  height : ℚ
  slideNumber : Nat
  background : Option BgObj

/-- `PPTXFabricConverter.pptx_to_fabric` after loading: one Slide per
document slide, EMU dimensions divided by 12700, 1-based slide numbers, and
per shape either a splice of a group result into the flat object list or an
append of the single object.  `tbl` is the theme table the color handler
built for this document. -/
def pptx_to_fabric (setN : List Nat → List Nat) (setS : List String → List String)
    (tbl : List (String × String)) (doc : PDoc) : List SlideData :=
  doc.slides.enum.map (fun p =>
    { objects :=
        p.2.shapes.foldl
          (fun acc sh =>
            match process_shape setN setS tbl sh with
            | some o => if o.core.ty = "group" then acc ++ o.objects else acc ++ [o]
            | none => acc)
          []
      width := emuToPt doc.slideWidthEmu
      height := emuToPt doc.slideHeightEmu
      slideNumber := p.1 + 1
      background := get_slide_background tbl p.2.bg })

/-- A slide of the reconstructed presentation. -/
structure RSlide where
  bg : PyFillState
  shapes : List RShapeState
deriving DecidableEq, Repr

/-- The reconstructed presentation. -/
structure RPres where
  slideWidthEmu : Int
  slideHeightEmu : Int
  slides : List RSlide
deriving DecidableEq, Repr

/-- `PPTXFabricConverter._set_slide_background` on the fresh background fill
of a new blank slide. -/
def set_slide_background (bg : Option BgObj) (st : PyFillState) : PyFillState :=
  match bg with
  | some b => applyParsedFill (parse_color b.fill) st
  | none => st

/-- `PPTXFabricConverter.fabric_to_pptx` without a template: slide size from
the first Slide (`int(width * 12700)`); per Slide one blank slide whose
background is set from the Slide data and whose shapes are the successfully
rebuilt objects, in order.  An empty input raises `IndexError` on
`fabric_data[0]`, which this method re-raises (`none`). -/
def fabric_to_pptx (fd : List SlideData) : Option RPres :=
  match fd with
  | [] => none
  | first :: _ =>
    some { slideWidthEmu := pyInt (first.width * 12700)
           slideHeightEmu := pyInt (first.height * 12700)
           slides := fd.map (fun sd =>
             { bg := set_slide_background sd.background freshFill
               shapes := sd.objects.filterMap (fun o => create_shape_from_fabric o.core) }) }

/-! ## Specification-side definitions (for comparison with the code) -/

/-- How a caller consumes `_extract_color_from_element`: the extracted color
when it is truthy (a nonempty string), otherwise the caller-supplied
default (`if color:` in `_extract_theme_colors`). -/
def resolve_color (tbl : List (String × String)) (e : ColorElement) (dflt : String) :
    String :=
  match extract_color_from_element tbl e with
  | some c => if c = "" then dflt else c
  | none => dflt

/-- Modelled from the spec sentence of claim C4: resolution tries, in order,
stopping at the first success: (1) the direct sRGB value if present; (2) the
system color declared last-rendered value if present; (3) the theme-indirect
scheme reference looked up in the theme table under the uppercased role name;
(4) otherwise the caller-supplied default. -/
def claimedResolveColor (tbl : List (String × String)) (e : ColorElement)
    (dflt : String) : String :=
  match e.srgb with
  | some v => "#" ++ pyStrOpt v
  | none =>
    match e.sysClr with
    | some (some lastClr, _) => "#" ++ lastClr
    | _ =>
      match e.schemeClr with
      | some (some v) =>
        (match dictGet tbl (pyUpper v) with
         | some c => if c = "" then dflt else c
         | none => dflt)
      | _ => dflt

/-- The amended resolution order, changed from `claimedResolveColor` only
where the counterexample forces it: step (2) fires whenever a system color
element is present, using its last-rendered value with fallback to its raw
`val` attribute (rather than moving on to the scheme reference). -/
def amendedResolveColor (tbl : List (String × String)) (e : ColorElement)
    (dflt : String) : String :=
  match e.srgb with
  | some v => "#" ++ pyStrOpt v
  | none =>
    match e.sysClr with
    | some (lastClr, val) => "#" ++ pyStrOpt (lastClr.orElse (fun _ => val))
    | none =>
      match e.schemeClr with
      | some (some v) =>
        (match dictGet tbl (pyUpper v) with
         | some c => if c = "" then dflt else c
         | none => dflt)
      | _ => dflt

/-! ## Concrete sample inputs used by the claims -/

/-- A plain Arial run font of the given size. -/
def plainFont (sz : Nat) : FontP :=
  { name := "Arial", size := sz, bold := false, italic := false, underline := false,
    color := "#000000", strike := false, sub := false, sup := false }

/-- One paragraph with three one-character runs of sizes 12, 12 and 18. -/
def c5_sample_paragraphs : List Para :=
  [{ text := "abc", align := "left", spacing_before := 0, spacing_after := 0,
     line_spacing := 1, runs :=
       [{ text := "a", font := plainFont 12 },
        { text := "b", font := plainFont 12 },
        { text := "c", font := plainFont 18 }] }]

/-- One paragraph with two one-character runs of sizes 12 and 18 (a tie in
the size counts). -/
def c5_tie_paragraphs : List Para :=
  [{ text := "ab", align := "left", spacing_before := 0, spacing_after := 0,
     line_spacing := 1, runs :=
       [{ text := "a", font := plainFont 12 },
        { text := "b", font := plainFont 18 }] }]

/-- A center-aligned paragraph with no runs at all; it exercises the
whole-box defaults of a textbox that has paragraphs but no runs. -/
def c5_center_paragraph : Para :=
  { text := "", align := "center", spacing_before := 0, spacing_after := 0,
    line_spacing := 1, runs := [] }

/-- A paragraph with a single one-character run; two structurally identical
copies of it exercise the paragraph-separator comparison. -/
def c8_sample_paragraph : Para :=
  { text := "a", align := "left", spacing_before := 0, spacing_after := 0,
    line_spacing := 1, runs := [{ text := "a", font := plainFont 12 }] }

/-- A single-slide document containing one solid-filled rectangle auto shape
at native position (1270000, 1270000) EMU (= point (100, 100)) and size
(2540000, 635000) EMU (= 200 by 50 points), filled with solid red, on a
720 by 540 point slide. -/
def c1_doc : PDoc :=
  { slideWidthEmu := 9144000
    slideHeightEmu := 6858000
    slides :=
      [{ shapes :=
           [.autoshape
              { leftEmu := 1270000, topEmu := 1270000, widthEmu := 2540000,
                heightEmu := 635000, rotation := some 0 }
              none (some (.solid (some (255, 0, 0)) none)) none false]
         bg := none }] }

/-- The scene object the forward conversion produces for the rectangle of
`c1_doc`. -/
def c1_expected_rect : SceneObj :=
  .mk { emptyCore with
        ty := "rect", left := 100, top := 100, width := 200, height := 50,
        rotation := 0, fill := some (.str "#ff0000"),
        stroke := some "#000000", strokeWidth := some 1 } []

/-! ## Helper lemmas -/

theorem append_hash_ne_empty (s : String) : "#" ++ s ≠ "" := by
  intro h
  have hl := congrArg String.length h
  rw [String.length_append] at hl
  have h1 : ("#" : String).length = 1 := rfl
  have h0 : ("" : String).length = 0 := rfl
  omega

theorem shadow_foldl (es : List Effect) (fp : FabricProps) :
    (es.foldl (fun acc e => { acc with shadow := some (effectToShadow e) }) fp).shadow =
      (match es.getLast? with
       | some e => some (effectToShadow e)
       | none => fp.shadow) := by
  induction es generalizing fp with
  | nil => rfl
  | cons e rest ih =>
    rw [List.foldl_cons, ih]
    cases rest with
    | nil => rfl
    | cons f fs =>
      rw [List.getLast?_cons_cons]
      cases hfl : (f :: fs).getLast? with
      | some g => rfl
      | none => simp at hfl

theorem afterGradient_shadow (p : AdvProps) (fp : FabricProps) :
    (convert_to_fabric.afterGradient p fp).shadow =
      (match p.effects.getLast? with
       | some e => some (effectToShadow e)
       | none => fp.shadow) := by
  unfold convert_to_fabric.afterGradient
  rw [shadow_foldl]
  cases hl : p.effects.getLast? with
  | some e => rfl
  | none =>
    rcases p.custom_geometry with _ | ⟨paths, rect⟩
    · rfl
    · cases paths <;> rcases rect with _ | ⟨l, t, r, b⟩ <;> rfl

/-! ## Claim theorems -/

/-- C7: converting a native EMU length forward to scalar points (division by
12700) and back through the reverse builder (`Inches(points / 72)`, i.e.
`int(points / 72 * 914400)`) returns the original value — in fact exactly,
hence in particular within the integer rounding allowed by the claim. -/
theorem c7_unit_roundtrip (x : Int) : fabricLenToEmu (emuToPt x) = x := by
  have h : emuToPt x / 72 * 914400 = (x : ℚ) := by
    unfold emuToPt
    rw [div_div, div_mul_eq_mul_div, mul_comm, mul_div_assoc]
    norm_num
    field_simp
  unfold fabricLenToEmu inchesToEmu pyInt
  rw [h]
  split
  · exact Int.floor_intCast x
  · exact Int.ceil_intCast x

/-- C3 (code bug): for every linear gradient fill — any `lin` angle, any
stops — the conversion does not produce the claimed unit-square endpoints:
the module does not bind the identifier `Math` (`mathIsBound = false`), so
the angle-to-coordinates computation raises `NameError` and the whole
advanced property dictionary is discarded, leaving no fill descriptor at
all. -/
theorem c3_linear_gradient_dropped (ang : Option Int) (hp : Bool) (gs : List GsElem)
    (geo : Option GeomProps) (effs : List Effect) :
    mathIsBound = false ∧
    convert_to_fabric (some
      { gradient := some (extract_gradient { lin := some ang, hasPath := hp, gsList := gs })
        custom_geometry := geo
        effects := effs }) = emptyFabricProps := by
  refine ⟨rfl, ?_⟩
  simp [convert_to_fabric, extract_gradient]

/-- C2 (amended): for every shape without a gradient fill, at most one shadow
descriptor is retained from its effect list, chosen with priority
soft-edge > glow > shadow (the extraction appends shadow, then glow, then
soft edge, and the conversion loop lets each later effect overwrite the
single shadow key — so the last extracted effect wins, the reverse of the
claimed priority); a glow alone still maps to a centered shadow with blur
twice the glow radius and the glow color/opacity, and a soft edge alone to a
centered shadow with opacity 0.1 and blur equal to its radius. -/
theorem c2_effect_priority_amended (geo : Option GeomProps) (el : EffectsElem) :
    (convert_to_fabric (some
      { gradient := none, custom_geometry := geo,
        effects := extract_effects el })).shadow =
      (match el.softEdge with
       | some se => some
           { color := "#000000", blur := ((se.rad.getD 0 : Int) : ℚ) / 12700,
             offsetX := 0, offsetY := 0, opacity := 1/10 }
       | none =>
         match el.glow with
         | some gl => some
             { color := get_effect_color gl.srgb,
               blur := (((gl.rad.getD 0 : Int) : ℚ) / 12700) * 2,
               offsetX := 0, offsetY := 0,
               opacity := ((gl.alpha.getD 100000 : Int) : ℚ) / 100000 }
         | none =>
           match el.outerShdw with
           | some sh => some
               { color := get_effect_color sh.srgb,
                 blur := ((sh.blurRad.getD 0 : Int) : ℚ) / 12700,
                 offsetX := ((sh.dx.getD 0 : Int) : ℚ) / 12700,
                 offsetY := ((sh.dy.getD 0 : Int) : ℚ) / 12700,
                 opacity := ((sh.alpha.getD 100000 : Int) : ℚ) / 100000 }
           | none => none) := by
  show (convert_to_fabric.afterGradient _ _).shadow = _
  rw [afterGradient_shadow]
  rcases el with ⟨sh, gl, se⟩
  rcases sh with _ | sh <;> rcases gl with _ | gl <;> rcases se with _ | se <;>
    simp [extract_effects, effectToShadow, emptyFabricProps]

/-- C2 counterexample: a shape carrying both a shadow and a glow yields the
glow parameters, not the shadow parameters the claim promises (shadow
element: color 112233, alpha 90000, blur radius 38100 EMU, offset
(12700, 25400) EMU; glow element: color 445566, alpha 50000, radius 50800
EMU).  The result is the glow-derived centered shadow with doubled blur. -/
theorem c2_effect_priority_counterexample :
    (convert_to_fabric (some
      { gradient := none, custom_geometry := none,
        effects := extract_effects
          { outerShdw := some
              { blurRad := some 38100, dx := some 12700, dy := some 25400,
                alpha := some 90000, srgb := some (some "112233") }
            glow := some
              { rad := some 50800, alpha := some 50000, srgb := some (some "445566") }
            softEdge := none } })).shadow =
        some { color := "#445566", blur := 8, offsetX := 0, offsetY := 0, opacity := 1/2 }
    ∧ (convert_to_fabric (some
      { gradient := none, custom_geometry := none,
        effects := extract_effects
          { outerShdw := some
              { blurRad := some 38100, dx := some 12700, dy := some 25400,
                alpha := some 90000, srgb := some (some "112233") }
            glow := some
              { rad := some 50800, alpha := some 50000, srgb := some (some "445566") }
            softEdge := none } })).shadow ≠
        some { color := "#112233", blur := 3, offsetX := 1, offsetY := 2, opacity := 9/10 } := by
  have h1 : (convert_to_fabric (some
      { gradient := none, custom_geometry := none,
        effects := extract_effects
          { outerShdw := some
              { blurRad := some 38100, dx := some 12700, dy := some 25400,
                alpha := some 90000, srgb := some (some "112233") }
            glow := some
              { rad := some 50800, alpha := some 50000, srgb := some (some "445566") }
            softEdge := none } })).shadow =
        some { color := "#445566", blur := 8, offsetX := 0, offsetY := 0, opacity := 1/2 } := by
    simp only [convert_to_fabric]
    rw [afterGradient_shadow]
    simp [extract_effects, effectToShadow, get_effect_color]
    norm_num
    rfl
  refine ⟨h1, ?_⟩
  rw [h1]
  intro h
  rw [Option.some_inj] at h
  have hb := congrArg ShadowProps.blur h
  norm_num at hb

/-- C4 (amended): color resolution tries, in order, stopping at the first
success: (1) the direct sRGB value if present; (2) if a system color element
is present, its declared last-rendered value, falling back to its raw `val`
attribute; (3) the theme-indirect scheme reference looked up in the theme
table under the uppercased role name; (4) otherwise the caller-supplied
default. -/
theorem c4_resolution_order_amended (tbl : List (String × String))
    (e : ColorElement) (dflt : String) :
    resolve_color tbl e dflt = amendedResolveColor tbl e dflt := by
  rcases e with ⟨srgb, sys, scheme⟩
  rcases srgb with _ | v
  · rcases sys with _ | ⟨lastClr, val⟩
    · rcases scheme with _ | w
      · simp [resolve_color, extract_color_from_element, amendedResolveColor]
      · rcases w with _ | v'
        · simp [resolve_color, extract_color_from_element, amendedResolveColor]
        · cases hd : dictGet tbl (pyUpper v') <;>
            simp [resolve_color, extract_color_from_element, amendedResolveColor, hd]
    · simp [resolve_color, extract_color_from_element, amendedResolveColor,
        append_hash_ne_empty]
  · simp [resolve_color, extract_color_from_element, amendedResolveColor,
      append_hash_ne_empty]

/-- C4 counterexample: an element whose system color carries only a raw
`val` attribute (no last-rendered value) and whose scheme reference is
`accent1`, resolved against the default theme table with caller default
`#123456`: the code stops at the system color and returns `#ABCDEF`, while
the claimed order would skip step (2) (no last-rendered value present) and
fall through to the scheme lookup / default, returning `#123456`. -/
theorem c4_resolution_order_counterexample :
    resolve_color default_theme_colors
        { srgb := none, sysClr := some (none, some "ABCDEF"),
          schemeClr := some (some "accent1") } "#123456" = "#ABCDEF"
    ∧ claimedResolveColor default_theme_colors
        { srgb := none, sysClr := some (none, some "ABCDEF"),
          schemeClr := some (some "accent1") } "#123456" = "#123456"
    ∧ ("#ABCDEF" : String) ≠ "#123456" := by
  refine ⟨rfl, ?_, by decide⟩
  rfl

/-- C6: a shape whose markup lacks the fill element (no `fill` attribute or a
`None` fill), or whose fill kind is background, is processed without any
exception reaching the caller (the embedding of `process_shape` is total) and
the resulting scene object carries the string fill `transparent`. -/
theorem c6_missing_fill_transparent (setN : List Nat → List Nat)
    (setS : List String → List String) (tbl : List (String × String))
    (b : BaseProps) (adv : Option AdvElem) (line : Option LineInfo) (isTri : Bool)
    (fk : Option FillKind) (h : fk = none ∨ fk = some .background) :
    ∃ o, process_shape setN setS tbl (.autoshape b adv fk line isTri) = some o ∧
      o.core.fill = some (.str "transparent") := by
  refine ⟨_, by rw [process_shape], ?_⟩
  rw [SceneObj.core]
  rcases h with h | h <;> subst h <;>
    cases isTri <;>
      simp [process_autoshape, get_shape_color]

/-- C6 witness. -/
theorem c6_missing_fill_transparent_witness :
    ∃ o, process_shape id id []
        (.autoshape { leftEmu := 0, topEmu := 0, widthEmu := 0, heightEmu := 0,
                      rotation := none } none none none false) = some o ∧
      o.core.fill = some (.str "transparent") :=
  c6_missing_fill_transparent id id []
    { leftEmu := 0, topEmu := 0, widthEmu := 0, heightEmu := 0, rotation := none }
    none none false none (Or.inl rfl)

theorem process_shape_list_eq_filterMap (setN : List Nat → List Nat)
    (setS : List String → List String) (tbl : List (String × String))
    (l : List PShape) :
    process_shape_list setN setS tbl l = l.filterMap (process_shape setN setS tbl) := by
  induction l with
  | nil => rw [process_shape_list, List.filterMap_nil]
  | cons s rest ih =>
    rw [process_shape_list, List.filterMap_cons]
    cases h : process_shape setN setS tbl s <;> simp [h, ih]

theorem noEmptyGroupsList_eq_all (l : List SceneObj) :
    noEmptyGroupsList l = l.all noEmptyGroups := by
  induction l with
  | nil => rfl
  | cons o os ih => rw [noEmptyGroupsList, List.all_cons, ih]

theorem process_autoshape_ty (tbl : List (String × String)) (c : ObjCore)
    (fk : Option FillKind) (line : Option LineInfo) (t : Bool) :
    (process_autoshape tbl c fk line t).ty = if t then "triangle" else "rect" := by
  cases t <;> simp [process_autoshape] <;> split <;> rfl

theorem process_textbox_ty (setN : List Nat → List Nat)
    (setS : List String → List String) (tbl : List (String × String)) (c : ObjCore)
    (ps : List Para) (bg : Option FillKind) :
    (process_textbox setN setS tbl c ps bg).ty = "textbox" := by
  simp [process_textbox]

theorem process_picture_ty (c : ObjCore) (img : Option (String × String))
    (a : Option (Option Int)) (cc : ObjCore) (h : process_picture c img a = some cc) :
    cc.ty = "image" := by
  rcases img with _ | ⟨data, ctype⟩ <;> simp [process_picture] at h
  rw [← h]

theorem process_freeform_ty (tbl : List (String × String)) (c : ObjCore)
    (pd : Option String) (fk : Option FillKind) (line : Option LineInfo)
    (cc : ObjCore) (h : process_freeform tbl c pd fk line = some cc) :
    cc.ty = "path" := by
  rcases pd with _ | p
  · simp [process_freeform] at h
  · by_cases hp : p = ""
    · simp [process_freeform, hp] at h
    · rcases hglp : get_line_properties tbl line with ⟨so, wo⟩
      cases so <;> cases wo <;>
        (simp [process_freeform, hp, hglp] at h; subst h; split <;> rfl)

theorem process_line_ty (tbl : List (String × String)) (b : BaseProps) (c : ObjCore)
    (line : Option LineInfo) : (process_line tbl b c line).ty = "path" := by
  simp [process_line]

theorem process_shape_noEmptyGroups (setN : List Nat → List Nat)
    (setS : List String → List String) (tbl : List (String × String)) :
    ∀ s o, process_shape setN setS tbl s = some o → noEmptyGroups o = true := by
  suffices H : ∀ n s o, sizeOf s ≤ n → process_shape setN setS tbl s = some o →
      noEmptyGroups o = true by
    exact fun s o h => H (sizeOf s) s o le_rfl h
  intro n
  induction n with
  | zero =>
    intro s o hs _
    exfalso
    cases s <;> simp at hs
  | succ n ih =>
    intro s o hs h
    cases s with
    | group b adv children =>
      rw [process_shape] at h
      rw [process_shape_list_eq_filterMap] at h
      by_cases he : (children.filterMap (process_shape setN setS tbl)).isEmpty
      · rw [if_pos he] at h
        exact absurd h (by simp)
      · rw [if_neg he, Option.some_inj] at h
        subst h
        rw [noEmptyGroups]
        have hlist : noEmptyGroupsList
            (children.filterMap (process_shape setN setS tbl)) = true := by
          rw [noEmptyGroupsList_eq_all, List.all_eq_true]
          intro o' ho'
          rw [List.mem_filterMap] at ho'
          obtain ⟨s', hs', hps'⟩ := ho'
          have hsz : sizeOf s' < sizeOf children := List.sizeOf_lt_of_mem hs'
          have hsz2 : sizeOf children < sizeOf (PShape.group b adv children) := by
            simp
          exact ih s' o' (by omega) hps'
        simp [hlist, he]
    | picture b adv img a =>
      rw [process_shape] at h
      rw [Option.map_eq_some'] at h
      obtain ⟨cc, hcc, ho⟩ := h
      subst ho
      rw [noEmptyGroups]
      have := process_picture_ty _ img a cc hcc
      simp [this, noEmptyGroupsList]
    | textbox b adv ps bg =>
      rw [process_shape, Option.some_inj] at h
      subst h
      rw [noEmptyGroups]
      simp [process_textbox_ty, noEmptyGroupsList]
    | autoshape b adv fk line t =>
      rw [process_shape, Option.some_inj] at h
      subst h
      rw [noEmptyGroups]
      have := process_autoshape_ty tbl (updateWithFabric (get_base_properties b)
        (convert_to_fabric (extract_shape_properties adv))) fk line t
      cases t <;> simp_all [noEmptyGroupsList]
    | freeform b adv pd fk line =>
      rw [process_shape] at h
      rw [Option.map_eq_some'] at h
      obtain ⟨cc, hcc, ho⟩ := h
      subst ho
      rw [noEmptyGroups]
      have := process_freeform_ty tbl _ pd fk line cc hcc
      simp [this, noEmptyGroupsList]
    | lineShape b adv line =>
      rw [process_shape, Option.some_inj] at h
      subst h
      rw [noEmptyGroups]
      simp [process_line_ty, noEmptyGroupsList]
    | unsupported =>
      rw [process_shape] at h
      exact absurd h (by simp)
    | failing =>
      rw [process_shape] at h
      exact absurd h (by simp)

/-- C9: the forward dispatcher maps a group shape to a scene object of kind
`group` whose children are exactly the kept (non-dropped) recursive results
of its child shapes, in order; a group all of whose children are dropped
produces no object at all; consequently no group object anywhere in a
forward result has an empty `objects` list. -/
theorem c9_group_invariant (setN : List Nat → List Nat)
    (setS : List String → List String) (tbl : List (String × String)) :
    (∀ b adv children,
       process_shape setN setS tbl (.group b adv children) =
         (if (children.filterMap (process_shape setN setS tbl)).isEmpty then none
          else some (.mk { updateWithFabric (get_base_properties b)
                             (convert_to_fabric (extract_shape_properties adv)) with
                           ty := "group" }
                       (children.filterMap (process_shape setN setS tbl)))))
    ∧ (∀ s o, process_shape setN setS tbl s = some o → noEmptyGroups o = true) := by
  constructor
  · intro b adv children
    rw [process_shape, process_shape_list_eq_filterMap]
  · exact process_shape_noEmptyGroups setN setS tbl

/-- C9 witness. -/
theorem c9_group_invariant_witness :
    noEmptyGroups (SceneObj.mk
      (process_line []
        { leftEmu := 0, topEmu := 0, widthEmu := 0, heightEmu := 0, rotation := none }
        (updateWithFabric
          (get_base_properties
            { leftEmu := 0, topEmu := 0, widthEmu := 0, heightEmu := 0, rotation := none })
          (convert_to_fabric (extract_shape_properties none))) none) []) = true :=
  (c9_group_invariant id id []).2
    (.lineShape { leftEmu := 0, topEmu := 0, widthEmu := 0, heightEmu := 0, rotation := none }
      none none)
    _ (by rw [process_shape])


theorem hexVal_hexDigitChar (d : Nat) (hd : d < 16) :
    hexVal (hexDigitChar d) = some d := by
  interval_cases d <;> rfl

theorem hexDigitChar_ne_hash (d : Nat) (hd : d < 16) : hexDigitChar d ≠ '#' := by
  interval_cases d <;> decide

theorem pyIntHex_two (d e : Nat) (hd : d < 16) (he : e < 16) :
    pyIntHex [hexDigitChar d, hexDigitChar e] = some (d * 16 + e) := by
  simp [pyIntHex, hexVal_hexDigitChar d hd, hexVal_hexDigitChar e he]

theorem natToHexRevAux_zero (fuel : Nat) : natToHexRevAux fuel 0 = [] := by
  cases fuel <;> rfl

theorem natToHexRev_small (n : Nat) (h1 : 0 < n) (h2 : n < 16) :
    natToHexRev n = [hexDigitChar n] := by
  obtain ⟨m, rfl⟩ : ∃ m, n = m + 1 := ⟨n - 1, by omega⟩
  show natToHexRevAux (m + 1) (m + 1) = _
  simp only [natToHexRevAux, Nat.div_eq_of_lt h2, Nat.mod_eq_of_lt h2, natToHexRevAux_zero]

theorem natToHexRev_mid (n : Nat) (h1 : 16 ≤ n) (h2 : n < 256) :
    natToHexRev n = [hexDigitChar (n % 16), hexDigitChar (n / 16)] := by
  obtain ⟨f, rfl⟩ : ∃ f, n = f + 1 + 1 := ⟨n - 2, by omega⟩
  show natToHexRevAux (f + 1 + 1) (f + 1 + 1) = _
  rw [natToHexRevAux]
  obtain ⟨k, hk⟩ : ∃ k, (f + 1 + 1) / 16 = k + 1 := ⟨(f + 1 + 1) / 16 - 1, by omega⟩
  rw [hk, natToHexRevAux]
  have hdiv0 : (k + 1) / 16 = 0 := by omega
  rw [hdiv0, natToHexRevAux_zero]
  have hmod : (k + 1) % 16 = k + 1 := Nat.mod_eq_of_lt (by omega)
  rw [hmod, ← hk]

theorem py02x_data (n : Nat) (hn : n < 256) :
    (py02x n).data = [hexDigitChar (n / 16), hexDigitChar (n % 16)] := by
  by_cases h16 : n < 16
  · rcases Nat.eq_zero_or_pos n with h0 | hpos
    · subst h0
      rfl
    · have haux := natToHexRev_small n hpos h16
      have hne : ¬ n = 0 := by omega
      rw [py02x, pyHex, if_neg hne, haux]
      simp only [List.reverse_singleton]
      have hlen : (String.mk [hexDigitChar n]).length < 2 := by
        simp [String.length]
      rw [if_pos hlen]
      rw [Nat.div_eq_of_lt h16, Nat.mod_eq_of_lt h16]
      show ('0' :: [hexDigitChar n]) = _
      rfl
  · have haux := natToHexRev_mid n (by omega) hn
    have hne : ¬ n = 0 := by omega
    rw [py02x, pyHex, if_neg hne, haux]
    have hlen : ¬ (String.mk [hexDigitChar (n % 16), hexDigitChar (n / 16)].reverse).length < 2 := by
      simp [String.length]
    rw [if_neg hlen]
    simp [String.mk]

theorem rgbToHex_data (r g b : Nat) (hr : r < 256) (hg : g < 256) (hb : b < 256) :
    (rgbToHex r g b).data =
      '#' :: [hexDigitChar (r / 16), hexDigitChar (r % 16),
              hexDigitChar (g / 16), hexDigitChar (g % 16),
              hexDigitChar (b / 16), hexDigitChar (b % 16)] := by
  have h : (rgbToHex r g b).data =
      ("#" : String).data ++ (py02x r).data ++ (py02x g).data ++ (py02x b).data := by
    rw [rgbToHex]
    simp [String.data_append]
  rw [h, py02x_data r hr, py02x_data g hg, py02x_data b hb]
  rfl

theorem parse_color_none (s : String) (h1 : s.data.head? ≠ some '#')
    (h2 : s.data.take 3 ≠ ['r', 'g', 'b']) : parse_color s = none := by
  rw [parse_color, parse_color_chars, if_neg h1, if_neg h2]

/-- C10: parsing the forward hex rendering of any byte triple with the
reverse color parser returns exactly that triple; a string starting with
neither `#` nor `rgb` parses to `None`; and for an object whose fill is such
a string the reverse property setter leaves the target shape fill state
unchanged. -/
theorem c10_parse_color_roundtrip :
    (∀ r g b : Nat, r < 256 → g < 256 → b < 256 →
       parse_color (rgbToHex r g b) = some [r, g, b])
    ∧ (∀ s : String, s.data.head? ≠ some '#' → s.data.take 3 ≠ ['r', 'g', 'b'] →
       parse_color s = none)
    ∧ (∀ (obj : ObjCore) (st : RShapeState) (s : String),
       obj.fill = some (.str s) → s.data.head? ≠ some '#' →
       s.data.take 3 ≠ ['r', 'g', 'b'] →
       (set_shape_properties obj st).fill = st.fill) := by
  refine ⟨?_, parse_color_none, ?_⟩
  · intro r g b hr hg hb
    have hd := rgbToHex_data r g b hr hg hb
    have hne : hexDigitChar (r / 16) ≠ '#' := hexDigitChar_ne_hash _ (by omega)
    rw [parse_color, hd, parse_color_chars]
    simp [List.dropWhile_cons, hne,
          pyIntHex_two (r / 16) (r % 16) (by omega) (by omega),
          pyIntHex_two (g / 16) (g % 16) (by omega) (by omega),
          pyIntHex_two (b / 16) (b % 16) (by omega) (by omega)]
    refine ⟨?_, ?_, ?_⟩ <;> omega
  · intro obj st s hfill h1 h2
    simp only [set_shape_properties, hfill, parse_color_value]
    rw [parse_color_none s h1 h2]
    repeat' split
    all_goals rfl

/-- C10 witness. -/
theorem c10_parse_color_roundtrip_witness :
    parse_color (rgbToHex 17 34 51) = some [17, 34, 51]
    ∧ parse_color "transparent" = none
    ∧ (set_shape_properties { emptyCore with fill := some (.str "transparent") }
        { kind := "rect", leftEmu := 0, topEmu := 0, widthEmu := 0, heightEmu := 0,
          fill := freshFill, line := freshLine, text := none, fontSizeEmu := none,
          fontName := none, fontColor := none, bold := none, italic := none,
          align := none, rotation := none }).fill = freshFill :=
  ⟨c10_parse_color_roundtrip.1 17 34 51 (by decide) (by decide) (by decide),
   c10_parse_color_roundtrip.2.1 "transparent" (by decide) (by decide),
   c10_parse_color_roundtrip.2.2
     { emptyCore with fill := some (.str "transparent") }
     { kind := "rect", leftEmu := 0, topEmu := 0, widthEmu := 0, heightEmu := 0,
       fill := freshFill, line := freshLine, text := none, fontSizeEmu := none,
       fontName := none, fontColor := none, bold := none, italic := none,
       align := none, rotation := none }
     "transparent" rfl (by decide) (by decide)⟩

theorem pyMaxCount_go_mem [DecidableEq α] (xs : List α) :
    ∀ (order : List α) (acc : Option α) (v : α),
      order.foldl (fun best y =>
        match best with
        | none => some y
        | some b => if xs.count b < xs.count y then some y else some b) acc = some v →
      v ∈ order ∨ acc = some v := by
  intro order
  induction order with
  | nil => exact fun acc v h => Or.inr h
  | cons y rest ih =>
    intro acc v h
    rw [List.foldl_cons] at h
    rcases ih _ v h with hmem | hacc
    · exact Or.inl (List.mem_cons_of_mem _ hmem)
    · rcases acc with _ | b
      · simp only [Option.some.injEq] at hacc
        exact Or.inl (hacc ▸ List.mem_cons_self y rest)
      · by_cases hc : xs.count b < xs.count y
        · simp only [hc, if_true, Option.some.injEq] at hacc
          exact Or.inl (hacc ▸ List.mem_cons_self y rest)
        · simp only [hc, if_false, Option.some.injEq] at hacc
          exact Or.inr (congrArg some hacc)

theorem pyMaxCount_go_le [DecidableEq α] (xs : List α) :
    ∀ (order : List α) (acc : Option α) (v : α),
      order.foldl (fun best y =>
        match best with
        | none => some y
        | some b => if xs.count b < xs.count y then some y else some b) acc = some v →
      (∀ b, acc = some b → xs.count b ≤ xs.count v) ∧
      (∀ y ∈ order, xs.count y ≤ xs.count v) := by
  intro order
  induction order with
  | nil =>
    intro acc v h
    refine ⟨fun b hb => ?_, by simp⟩
    rw [List.foldl_nil] at h
    rw [hb] at h
    simp only [Option.some.injEq] at h
    exact le_of_eq (congrArg xs.count h)
  | cons y rest ih =>
    intro acc v h
    rw [List.foldl_cons] at h
    obtain ⟨ih1, ih2⟩ := ih _ v h
    have hy : xs.count y ≤ xs.count v := by
      rcases acc with _ | b
      · exact ih1 y rfl
      · by_cases hc : xs.count b < xs.count y
        · exact ih1 y (by simp [hc])
        · exact le_trans (by omega) (ih1 b (by simp [hc]))
    refine ⟨fun b hb => ?_, fun z hz => ?_⟩
    · subst hb
      by_cases hc : xs.count b < xs.count y
      · omega
      · exact ih1 b (by simp [hc])
    · rcases List.mem_cons.mp hz with rfl | hz'
      · exact hy
      · exact ih2 z hz'

theorem pyMaxCount_go_isSome [DecidableEq α] (xs : List α) :
    ∀ (order : List α) (acc : Option α), (acc.isSome ∨ order ≠ []) →
      (order.foldl (fun best y =>
        match best with
        | none => some y
        | some b => if xs.count b < xs.count y then some y else some b) acc).isSome := by
  intro order
  induction order with
  | nil =>
    intro acc h
    rcases h with h | h
    · exact h
    · exact absurd rfl h
  | cons y rest ih =>
    intro acc _
    rw [List.foldl_cons]
    apply ih
    left
    rcases acc with _ | b
    · rfl
    · by_cases hc : xs.count b < xs.count y <;> simp [hc]

theorem pyMaxCount_spec [DecidableEq α] (order xs : List α) (v : α)
    (h : pyMaxCount order xs = some v) :
    v ∈ order ∧ ∀ y ∈ order, xs.count y ≤ xs.count v := by
  rw [pyMaxCount] at h
  refine ⟨?_, (pyMaxCount_go_le xs order none v h).2⟩
  rcases pyMaxCount_go_mem xs order none v h with hm | hc
  · exact hm
  · exact absurd hc (by simp)

theorem pyMaxCount_isSome [DecidableEq α] (order xs : List α) (hne : order ≠ []) :
    (pyMaxCount order xs).isSome := by
  rw [pyMaxCount]
  exact pyMaxCount_go_isSome xs order none (Or.inr hne)

theorem pyMaxCount_unique [DecidableEq α] (order xs : List α) (v : α)
    (hperm : order.Perm xs.dedup) (hv : v ∈ xs)
    (hmax : ∀ y ∈ xs, y ≠ v → xs.count y < xs.count v) :
    pyMaxCount order xs = some v := by
  have hne : order ≠ [] := by
    intro h0
    rw [h0] at hperm
    have hd : xs.dedup = [] := hperm.nil_eq.symm
    rw [List.dedup_eq_nil] at hd
    subst hd
    exact absurd hv (by simp)
  obtain ⟨w, hw⟩ := Option.isSome_iff_exists.mp (pyMaxCount_isSome order xs hne)
  obtain ⟨hwm, hwmax⟩ := pyMaxCount_spec order xs w hw
  by_cases hwv : w = v
  · rw [hwv] at hw
    exact hw
  · have hw_in : w ∈ xs := List.mem_dedup.mp (hperm.mem_iff.mp hwm)
    have h1 : xs.count w < xs.count v := hmax w hw_in hwv
    have h2 : xs.count v ≤ xs.count w :=
      hwmax v (hperm.mem_iff.mpr (List.mem_dedup.mpr hv))
    omega

theorem pyMaxCount_getD_mode [DecidableEq α] (order xs : List α) (d : α)
    (hperm : order.Perm xs.dedup) (hne : xs ≠ []) :
    (pyMaxCount order xs).getD d ∈ xs ∧
    ∀ y ∈ xs, xs.count y ≤ xs.count ((pyMaxCount order xs).getD d) := by
  have hnil : order ≠ [] := by
    intro h0
    rw [h0] at hperm
    have hd := hperm.nil_eq.symm
    rw [List.dedup_eq_nil] at hd
    exact hne hd
  obtain ⟨w, hw⟩ := Option.isSome_iff_exists.mp (pyMaxCount_isSome order xs hnil)
  obtain ⟨hwm, hwmax⟩ := pyMaxCount_spec order xs w hw
  rw [hw]
  simp only [Option.getD_some]
  refine ⟨List.mem_dedup.mp (hperm.mem_iff.mp hwm), fun y hy => ?_⟩
  exact hwmax y (hperm.mem_iff.mpr (List.mem_dedup.mpr hy))

/-- C5 (amended): each of the four whole-box textbox defaults — fontSize,
fontFamily and fill over the observed runs, textAlign over the paragraphs —
is a value of maximal frequency (the statistical mode) among its observed
values, but ties are broken by the iteration order of the CPython `set` of
distinct values, not by the first-seen value; the claimed concrete case
holds: runs of sizes 12, 12, 18 give whole-box fontSize 12 while the style
map still records 18 at the third run's character offset; a textbox with no
paragraphs yields the fixed defaults Arial, 12, black, left; and whenever an
observed-value list is empty (in particular for paragraphs with no runs,
which still contribute their alignment) the corresponding fixed default is
returned. -/
theorem c5_textbox_mode_defaults :
    (∀ (setN : List Nat → List Nat) (setS : List String → List String) (ps : List Para),
       (∀ xs : List Nat, (setN xs).Perm xs.dedup) →
       (∀ xs : List String, (setS xs).Perm xs.dedup) →
       ((textAccOf ps).font_sizes ≠ [] →
         (convert_to_fabric_text setN setS ps).fontSize ∈ (textAccOf ps).font_sizes ∧
         ∀ y ∈ (textAccOf ps).font_sizes,
           (textAccOf ps).font_sizes.count y ≤
             (textAccOf ps).font_sizes.count ((convert_to_fabric_text setN setS ps).fontSize))
       ∧ ((textAccOf ps).font_families ≠ [] →
         (convert_to_fabric_text setN setS ps).fontFamily ∈ (textAccOf ps).font_families ∧
         ∀ y ∈ (textAccOf ps).font_families,
           (textAccOf ps).font_families.count y ≤
             (textAccOf ps).font_families.count
               ((convert_to_fabric_text setN setS ps).fontFamily))
       ∧ ((textAccOf ps).colors ≠ [] →
         (convert_to_fabric_text setN setS ps).fill ∈ (textAccOf ps).colors ∧
         ∀ y ∈ (textAccOf ps).colors,
           (textAccOf ps).colors.count y ≤
             (textAccOf ps).colors.count ((convert_to_fabric_text setN setS ps).fill))
       ∧ ((textAccOf ps).alignments ≠ [] →
         (convert_to_fabric_text setN setS ps).textAlign ∈ (textAccOf ps).alignments ∧
         ∀ y ∈ (textAccOf ps).alignments,
           (textAccOf ps).alignments.count y ≤
             (textAccOf ps).alignments.count
               ((convert_to_fabric_text setN setS ps).textAlign)))
    ∧ (∀ (setN : List Nat → List Nat) (setS : List String → List String),
       (∀ xs : List Nat, (setN xs).Perm xs.dedup) →
       (convert_to_fabric_text setN setS c5_sample_paragraphs).fontSize = 12 ∧
       List.lookup 2 (convert_to_fabric_text setN setS c5_sample_paragraphs).styles =
         some (styleOfRun "left" { text := "c", font := plainFont 18 }))
    ∧ (∀ (setN : List Nat → List Nat) (setS : List String → List String),
       convert_to_fabric_text setN setS [] =
         { text := "", styles := [], fontSize := 12, fontFamily := "Arial",
           textAlign := "left", fill := "#000000" })
    ∧ (∀ (setN : List Nat → List Nat) (setS : List String → List String) (ps : List Para),
       ((textAccOf ps).font_sizes = [] →
         (convert_to_fabric_text setN setS ps).fontSize = 12)
       ∧ ((textAccOf ps).font_families = [] →
         (convert_to_fabric_text setN setS ps).fontFamily = "Arial")
       ∧ ((textAccOf ps).colors = [] →
         (convert_to_fabric_text setN setS ps).fill = "#000000")
       ∧ ((textAccOf ps).alignments = [] →
         (convert_to_fabric_text setN setS ps).textAlign = "left")) := by
  refine ⟨?_, ?_, fun setN setS => rfl, ?_⟩
  · intro setN setS ps hN hS
    refine ⟨fun hne => ?_, fun hne => ?_, fun hne => ?_, fun hne => ?_⟩
    · have hfs : (convert_to_fabric_text setN setS ps).fontSize =
          (pyMaxCount (setN (textAccOf ps).font_sizes) (textAccOf ps).font_sizes).getD 12 := by
        simp [convert_to_fabric_text, hne]
      rw [hfs]
      exact pyMaxCount_getD_mode _ _ 12 (hN _) hne
    · have hff : (convert_to_fabric_text setN setS ps).fontFamily =
          (pyMaxCount (setS (textAccOf ps).font_families)
            (textAccOf ps).font_families).getD "Arial" := by
        simp [convert_to_fabric_text, hne]
      rw [hff]
      exact pyMaxCount_getD_mode _ _ "Arial" (hS _) hne
    · have hfi : (convert_to_fabric_text setN setS ps).fill =
          (pyMaxCount (setS (textAccOf ps).colors) (textAccOf ps).colors).getD "#000000" := by
        simp [convert_to_fabric_text, hne]
      rw [hfi]
      exact pyMaxCount_getD_mode _ _ "#000000" (hS _) hne
    · have hta : (convert_to_fabric_text setN setS ps).textAlign =
          (pyMaxCount (setS (textAccOf ps).alignments)
            (textAccOf ps).alignments).getD "left" := by
        simp [convert_to_fabric_text, hne]
      rw [hta]
      exact pyMaxCount_getD_mode _ _ "left" (hS _) hne
  · intro setN setS hN
    have hsizes : (textAccOf c5_sample_paragraphs).font_sizes = [12, 12, 18] := rfl
    have h12 : pyMaxCount (setN [12, 12, 18]) [12, 12, 18] = some 12 :=
      pyMaxCount_unique _ _ 12 (hN [12, 12, 18]) (by decide) (by decide)
    constructor
    · have : (convert_to_fabric_text setN setS c5_sample_paragraphs).fontSize =
          (pyMaxCount (setN (textAccOf c5_sample_paragraphs).font_sizes)
            (textAccOf c5_sample_paragraphs).font_sizes).getD 12 := by
        simp [convert_to_fabric_text, hsizes]
      rw [this, hsizes, h12]
      rfl
    · rfl
  · intro setN setS ps
    refine ⟨fun h => ?_, fun h => ?_, fun h => ?_, fun h => ?_⟩ <;>
      simp [convert_to_fabric_text, h]

/-- C5 witness. -/
theorem c5_textbox_mode_defaults_witness :
    ((convert_to_fabric_text (fun xs : List Nat => xs.dedup)
        (fun xs : List String => xs.dedup) c5_sample_paragraphs).fontSize
      ∈ (textAccOf c5_sample_paragraphs).font_sizes)
    ∧ ((convert_to_fabric_text (fun xs : List Nat => xs.dedup)
        (fun xs : List String => xs.dedup) c5_sample_paragraphs).textAlign
      ∈ (textAccOf c5_sample_paragraphs).alignments)
    ∧ (convert_to_fabric_text (fun xs : List Nat => xs.dedup)
        (fun xs : List String => xs.dedup) c5_sample_paragraphs).fontSize = 12 :=
  ⟨((c5_textbox_mode_defaults.1 (fun xs => xs.dedup) (fun xs => xs.dedup)
      c5_sample_paragraphs (fun xs => List.Perm.refl _)
      (fun xs => List.Perm.refl _)).1 (by decide)).1,
   ((c5_textbox_mode_defaults.1 (fun xs => xs.dedup) (fun xs => xs.dedup)
      c5_sample_paragraphs (fun xs => List.Perm.refl _)
      (fun xs => List.Perm.refl _)).2.2.2 (by decide)).1,
   (c5_textbox_mode_defaults.2.1 (fun xs => xs.dedup) (fun xs => xs.dedup)
      (fun xs => List.Perm.refl _)).1⟩

/-- C5 counterexample, refuting two parts of the claim as stated.  First,
the tie-break: for two runs with tied sizes 12 and 18 (in that order),
CPython iterates the set of distinct sizes in table-slot order, visiting 18
before 12 (`list(set([12, 18])) == [18, 12]`), so the whole-box fontSize is
18 — while the claimed first-seen tie-break yields 12.  Second, the no-runs
defaults: a textbox holding one center-aligned paragraph with no runs at all
still records that paragraph's alignment, so the whole-box textAlign is
`center` — while the claim requires the fixed default `left` whenever there
are no runs. -/
theorem c5_tiebreak_counterexample :
    ((convert_to_fabric_text cpythonSetNat (fun xs : List String => xs.dedup)
        c5_tie_paragraphs).fontSize = 18
      ∧ firstSeenMode ((textAccOf c5_tie_paragraphs).font_sizes) = some 12
      ∧ (18 : Nat) ≠ 12)
    ∧ ((convert_to_fabric_text cpythonSetNat (fun xs : List String => xs.dedup)
        [c5_center_paragraph]).textAlign = "center"
      ∧ (textAccOf [c5_center_paragraph]).font_sizes = []
      ∧ ("center" : String) ≠ "left") :=
  ⟨⟨rfl, rfl, by decide⟩, ⟨rfl, rfl, by decide⟩⟩

/-- C8 (code bug): the paragraph separator is inserted only when the current
paragraph compares unequal — by Python `!=`, a structural value comparison —
to the final paragraph of the list, instead of checking the position.  For a
textbox of two structurally identical paragraphs (each the single run `a`)
the extracted text is `aa` with style offsets 0 and 1: no newline is
inserted between the two paragraphs and the offsets never advance across a
separator, where the claim requires the text `a`, a newline, `a` with the
second paragraph's style at offset 2. -/
theorem c8_duplicate_paragraph_newline_lost (setN : List Nat → List Nat)
    (setS : List String → List String) :
    (convert_to_fabric_text setN setS [c8_sample_paragraph, c8_sample_paragraph]).text = "aa"
    ∧ (convert_to_fabric_text setN setS [c8_sample_paragraph, c8_sample_paragraph]).styles =
        [(0, styleOfRun "left" { text := "a", font := plainFont 12 }),
         (1, styleOfRun "left" { text := "a", font := plainFont 12 })]
    ∧ ("aa" : String) ≠ "a\na" :=
  ⟨rfl, rfl, by decide⟩

/-- C1 (code bug): the forward conversion of the single-slide document with
one solid-filled rectangle produces exactly the claimed Slide — one scene
object of kind `rect` at the native values divided by 12700 with the
resolved hex fill — but reverse-converting that Slide adds no shape at all:
the rect branch of the reverse builder evaluates `MSO_SHAPE.RECTANGLE`,
`MSO_SHAPE` is not bound in the module (`msoShapeIsBound = false`), the
`NameError` is caught, and the reconstructed slide ends up empty instead of
holding the claimed rectangle. -/
theorem c1_roundtrip_rect_lost :
    msoShapeIsBound = false
    ∧ pptx_to_fabric id id default_theme_colors c1_doc =
        [{ objects := [c1_expected_rect], width := 720, height := 540,
           slideNumber := 1, background := none }]
    ∧ fabric_to_pptx (pptx_to_fabric id id default_theme_colors c1_doc) =
        some { slideWidthEmu := 9144000, slideHeightEmu := 6858000,
               slides := [{ bg := freshFill, shapes := [] }] } := by
  have hhex : rgbToHex 255 0 0 = "#ff0000" := rfl
  have hshape : process_shape id id default_theme_colors
      (.autoshape
        { leftEmu := 1270000, topEmu := 1270000, widthEmu := 2540000,
          heightEmu := 635000, rotation := some 0 }
        none (some (.solid (some (255, 0, 0)) none)) none false) =
      some c1_expected_rect := by
    simp [process_shape, process_autoshape, get_base_properties, updateWithFabric,
      convert_to_fabric, extract_shape_properties, emptyFabricProps, emptyCore,
      get_line_properties, get_shape_color, hhex, c1_expected_rect]
    norm_num
  have hfwd : pptx_to_fabric id id default_theme_colors c1_doc =
      [{ objects := [c1_expected_rect], width := 720, height := 540,
         slideNumber := 1, background := none }] := by
    simp [pptx_to_fabric, c1_doc, hshape, get_slide_background, emuToPt,
      c1_expected_rect, SceneObj.core, SceneObj.objects, emptyCore,
      -Prod.mk_zero_zero]
    norm_num
  refine ⟨rfl, hfwd, ?_⟩
  rw [hfwd]
  simp [fabric_to_pptx, set_slide_background, create_shape_from_fabric,
    c1_expected_rect, SceneObj.core, emptyCore, msoShapeIsBound, pyInt]
  norm_num
